import Mathlib

/-!
Verification of the pymodaq_plugins_trinamic repository.

Shallow embedding conventions:
* Python machine floats are read as exact rationals (their decimal literals),
  so unit-conversion arithmetic is over ℚ.
* Stateful objects become explicit state records; methods become functions on
  those records.
* Python exceptions (ImportError, TypeError, UnboundLocalError) become
  `Except` error values; a Python call with a wrong argument list is embedded
  through an explicit argument-list wrapper that mirrors the CPython arity
  check at the call site.
* Device responses that the code polls for are abstracted as a trace
  `Nat → Int` giving the value returned by the n-th read; unbounded `while`
  loops become fuel-indexed loops whose behaviour is characterised for every
  fuel.
-/

namespace Trinamic

/- ### hardware/trinamic.py : module-level names

The hardware module defines exactly two top-level classes. -/

/-- Top-level names defined by `pymodaq_plugins_trinamic.hardware.trinamic`. -/
def hardwareModuleExports : List String :=
  ["TrinamicManager", "TrinamicController"]

/-- Names requested by the import statement at line 11 of
`daq_move_Trinamic.py`. -/
def pluginImportList : List String :=
  ["TrinamicManager", "TrinamicController", "PositionMonitor"]

/-- Python `from M import a, b, c` semantics: fails with ImportError on the
first requested name the module does not define. -/
def importNames (exports requested : List String) : Except String Unit :=
  match requested.find? (fun n => !(exports.contains n)) with
  | some n => Except.error n
  | none => Except.ok ()

/-- Parameter names of `TrinamicManager.__init__` besides `self`
(`def __init__(self):` — there are none, and no `**kwargs`). -/
def trinamicManagerInitKeywords : List String := []

/-- Calling `TrinamicManager(...)` with the given keyword-argument names:
CPython raises TypeError when a keyword does not match any parameter. -/
def callTrinamicManagerInit (kwargs : List String) : Except String Unit :=
  if kwargs.all (fun k => trinamicManagerInitKeywords.contains k) then
    Except.ok ()
  else
    Except.error "TypeError"

/-- Loading module `daq_move_Trinamic`: first the import statement at line 11
runs, then (if it succeeded) the class body, whose first executable statement
is `manager = TrinamicManager(baudrate=9600)` at line 30. -/
def loadLocalPluginModule : Except String Unit := do
  importNames hardwareModuleExports pluginImportList
  callTrinamicManagerInit ["baudrate"]

/-- The local plugin class can be instantiated only if its module loaded. -/
def localPluginInstantiable : Bool := loadLocalPluginModule.toBool

/- ### TrinamicController motion commands -/

/-- A TMCL motion command issued to the vendor motor object. -/
inductive MotorCmd where
  | moveTo (position velocity : Int)
  | moveBy (difference velocity : Int)
  | stopCmd
  deriving DecidableEq, Repr

/-- `TrinamicController.move_to` body: `self.motor.move_to(position,
self.motor.linear_ramp.max_velocity)`. -/
def move_to (maxVelocity position : Int) : MotorCmd :=
  MotorCmd.moveTo position maxVelocity

/-- A Python call of the bound method `self.move_to` with an explicit
positional-argument list: `move_to` declares exactly one parameter besides
`self`, so any other arity raises TypeError at the call site. -/
def callMoveTo (maxVelocity : Int) (args : List Int) : Except String MotorCmd :=
  match args with
  | [position] => Except.ok (move_to maxVelocity position)
  | _ => Except.error "TypeError"

/-- `TrinamicController.move_to_reference` body:
`self.move_to(0, self.motor.linear_ramp.max_velocity)` — two positional
arguments are supplied to `move_to`. -/
def move_to_reference (maxVelocity : Int) : Except String MotorCmd :=
  callMoveTo maxVelocity [0, maxVelocity]

/- ### TrinamicController microstep resolution -/

/-- `TrinamicController.possible_microstep_resolution`. -/
def possible_microstep_resolution : List String :=
  ["MicrostepResolutionFullstep",
   "MicrostepResolutionHalfstep",
   "MicrostepResolution4Microsteps",
   "MicrostepResolution8Microsteps",
   "MicrostepResolution16Microsteps",
   "MicrostepResolution32Microsteps",
   "MicrostepResolution64Microsteps",
   "MicrostepResolution128Microsteps",
   "MicrostepResolution256Microsteps"]

/-- The `microstep_resolution` setter: an if/elif chain on the selector
string, with no final else, acting on the stored
`motor.drive_settings.microstep_resolution` value (the getter returns that
stored value unchanged). -/
def setMicrostepResolution (stored value : String) : String :=
  if value = "Full" then possible_microstep_resolution.getD 0 ""
  else if value = "Half" then possible_microstep_resolution.getD 1 ""
  else if value = "4" then possible_microstep_resolution.getD 2 ""
  else if value = "8" then possible_microstep_resolution.getD 3 ""
  else if value = "16" then possible_microstep_resolution.getD 4 ""
  else if value = "32" then possible_microstep_resolution.getD 5 ""
  else if value = "64" then possible_microstep_resolution.getD 6 ""
  else if value = "128" then possible_microstep_resolution.getD 7 ""
  else if value = "256" then possible_microstep_resolution.getD 8 ""
  else stored

/- ### TrinamicManager connection tracking -/

/-- State of the `TrinamicManager`: the `connections` port list, plus the set
of ports whose vendor interface handle has been opened and not closed. -/
structure TrinamicManagerState where
  connections : List String
  openHandles : List String
  deriving DecidableEq, Repr

/-- Fresh manager as built by `TrinamicManager.__init__`. -/
def initialManager : TrinamicManagerState := ⟨[], []⟩

/-- `TrinamicManager.connect` success path: opens `UsbTmclInterface(port)`
(bound to `self.interface`) and appends the port to `connections`; no
previously opened handle is closed. -/
def manager_connect (st : TrinamicManagerState) (port : String) :
    TrinamicManagerState :=
  ⟨st.connections ++ [port], st.openHandles ++ [port]⟩

/-- `TrinamicManager.close` body: `if port in self.connections:
self.connections.remove(port) else: print(...)` — nothing else. `List.erase`
removes the first occurrence when present and is the identity otherwise,
matching both branches. -/
def manager_close (st : TrinamicManagerState) (port : String) :
    TrinamicManagerState :=
  ⟨st.connections.erase port, st.openHandles⟩

/- ### daq_move_Trinamic.start_position_monitoring -/

/-- Monitor bookkeeping: identifiers of monitor worker threads that have been
started and not stopped. -/
structure PositionMonitoringState where
  nextId : Nat
  runningMonitors : List Nat
  deriving DecidableEq, Repr

/-- No monitor running before `ini_stage`. -/
def initialMonitoring : PositionMonitoringState := ⟨0, []⟩

/-- `start_position_monitoring` body: builds a fresh `QThread` and
`PositionMonitor` worker, connects its update signal, and starts the thread.
The attributes `pos_thread` / `pos_worker` are overwritten, but no statement
stops, quits or joins a previously started monitor. -/
def start_position_monitoring (s : PositionMonitoringState) :
    PositionMonitoringState :=
  ⟨s.nextId + 1, s.nextId :: s.runningMonitors⟩

/- ### TrinamicController.set_closed_loop_mode -/

/-- The polling loop of `set_closed_loop_mode`:
`while self.motor.get_axis_parameter(CLInitFlag) != v: time.sleep(1)`.
`flag n` is the device answer to the n-th `get_axis_parameter(CLInitFlag)`
read; the loop runs with fuel (the real loop is unbounded) and returns the
index of the first read that matched, when one occurs within the fuel. -/
def clPollFrom (flag : Nat → Int) (target : Int) :
    Nat → Nat → Option Nat
  | _, 0 => none
  | n, fuel + 1 =>
    if flag n = target then some n else clPollFrom flag target (n + 1) fuel

/-- Seconds slept between consecutive `CLInitFlag` reads (`time.sleep(1)`). -/
def clSleepSeconds : Nat := 1

/-- `set_closed_loop_mode(value)`: writes the `ClosedLoopMode` axis parameter
to 1 (value truthy) or 0, then polls `CLInitFlag` until it equals the written
value. Returns the written value together with the exit index of the poll
loop under the given fuel. -/
def set_closed_loop_mode (flag : Nat → Int) (value : Bool) (fuel : Nat) :
    Int × Option Nat :=
  let v : Int := if value then 1 else 0
  (v, clPollFrom flag v 0 fuel)

/- ### daq_move_TrinamicLECO unit conversion (move_abs / move_rel) -/

/-- The IEEE-754 double value of `np.pi`, read as an exact rational. -/
def piDouble : ℚ := 884279719003555 / 281474976710656

/-- The literal `0.299792458` of the `ps` branch, read as a rational. -/
def psToMmFactor : ℚ := 299792458 / 1000000000

/-- The factor `180 / np.pi` of the `rad` branch. -/
def radToDegFactor : ℚ := 180 / piDouble

/-- Conversion applied to `position` by the if/elif chain of `move_abs` and
`move_rel`: `mm` and every unmatched unit leave it unchanged. -/
def positionToCanonical (units : String) (v : ℚ) : ℚ :=
  if units = "mm" then v
  else if units = "um" then v * (1 / 1000)
  else if units = "nm" then v * (1 / 1000000)
  else if units = "ps" then v * psToMmFactor
  else if units = "rad" then v * radToDegFactor
  else v

/-- The `current_value_metadata` assignment of the same chain in `move_abs`
and `move_rel`: each matched branch divides by the branch factor; when no
branch matches the local variable is never assigned (`none`). -/
def currentValueToDisplay (units : String) (v : ℚ) : Option ℚ :=
  if units = "mm" then some v
  else if units = "um" then some (v / (1 / 1000))
  else if units = "nm" then some (v / (1 / 1000000))
  else if units = "ps" then some (v / psToMmFactor)
  else if units = "rad" then some (v / radToDegFactor)
  else none

/-- The `current_value_metadata` assignment in `move_home`, whose `mm` case
is a separate `if` preceding the `if um / elif nm / elif ps / elif rad`
chain. -/
def currentValueToDisplayHome (units : String) (v : ℚ) : Option ℚ :=
  let fromFirstIf : Option ℚ := if units = "mm" then some v else none
  if units = "um" then some (v / (1 / 1000))
  else if units = "nm" then some (v / (1 / 1000000))
  else if units = "ps" then some (v / psToMmFactor)
  else if units = "rad" then some (v / radToDegFactor)
  else fromFirstIf

/-- Reading an unassigned Python local raises UnboundLocalError. -/
inductive PyErr where
  | unboundLocal (name : String)
  deriving DecidableEq, Repr

/-- The telemetry metadata dictionary built by the remote move operations
(the fields relevant to the embedded logic). -/
structure MoveTelemetry where
  currentValue : ℚ
  finalValue : Option ℚ
  units : String
  messageType : String
  deriving DecidableEq, Repr

/-- Result of `DAQ_Move_TrinamicLECO.move_abs` / `move_rel`: the position
forwarded to `controller.move_abs` / `move_rel` (sent before the metadata is
built), and the telemetry construction, which raises when
`current_value_metadata` was never assigned. -/
structure RemoteMoveResult where
  sentPosition : ℚ
  telemetry : Except PyErr MoveTelemetry

/-- `DAQ_Move_TrinamicLECO.move_abs` (bounds and scaling at their default
identity configuration): converts the position, forwards it, then builds the
`move_start` telemetry from `current_value_metadata`. -/
def move_abs (units : String) (position currentValue : ℚ) : RemoteMoveResult :=
  let positionMeta := position
  let sent := positionToCanonical units position
  match currentValueToDisplay units currentValue with
  | some c => ⟨sent, Except.ok ⟨c, some positionMeta, units, "move_start"⟩⟩
  | none => ⟨sent, Except.error (PyErr.unboundLocal "current_value_metadata")⟩

/-- `DAQ_Move_TrinamicLECO.move_rel`, same structure as `move_abs` with the
final telemetry value `current_value_metadata + position_metadata`. -/
def move_rel (units : String) (position currentValue : ℚ) : RemoteMoveResult :=
  let positionMeta := position
  let sent := positionToCanonical units position
  match currentValueToDisplay units currentValue with
  | some c =>
    ⟨sent, Except.ok ⟨c, some (c + positionMeta), units, "move_start"⟩⟩
  | none => ⟨sent, Except.error (PyErr.unboundLocal "current_value_metadata")⟩

/-- Result of `DAQ_Move_TrinamicLECO.move_home`: whether
`controller.move_home()` was reached (it is the last statement, after the
metadata construction), and the telemetry construction. -/
structure MoveHomeResult where
  moveIssued : Bool
  telemetry : Except PyErr MoveTelemetry

/-- `DAQ_Move_TrinamicLECO.move_home`: builds the telemetry first, then
issues the move; an UnboundLocalError therefore prevents the move command. -/
def move_home (units : String) (currentValue : ℚ) : MoveHomeResult :=
  match currentValueToDisplayHome units currentValue with
  | some c => ⟨true, Except.ok ⟨c, some 0, units, "move_start"⟩⟩
  | none => ⟨false, Except.error (PyErr.unboundLocal "current_value_metadata")⟩

/- ### daq_move_Trinamic target-reached check -/

/-- Milliseconds waited by `user_condition_to_reach_target` before reading
the reached flag (`QtCore.QThread.msleep(200)`). -/
def userConditionWaitMs : Nat := 200

/-- `user_condition_to_reach_target` after its fixed wait: returns True when
`motor.get_position_reached()` is truthy, else False. -/
def user_condition_to_reach_target (positionReached : Bool) : Bool :=
  if positionReached then true else false

/-- Interval in milliseconds preceding the n-th target-reached check: every
check performs the same fixed `msleep(200)`; nothing in the plugin varies
it. -/
def targetPollIntervalMs (_ : Nat) : Nat := userConditionWaitMs

/-- The value `ini_stage` stores into the `timeout` setting (line 249). -/
def iniStageTimeoutSetting : Nat := 1000

/- ### daq_move_TrinamicLECO._move_done_sig -/

/-- Events of the remote plugin that could touch `_move_done_sig`. -/
inductive LecoEvent where
  | setMoveDone
  | sendPosition
  | moveAbsCall
  | moveRelCall
  | moveHomeCall
  | stopMotionCall
  | commitSettingsCall
  deriving DecidableEq, Repr

/-- Effect of one handled event on `_move_done_sig`: only `set_move_done`
assigns it (to True, line 355); no other method of the class assigns it. -/
def stepMoveDoneSig (sig : Bool) : LecoEvent → Bool
  | LecoEvent.setMoveDone => true
  | _ => sig

/-- `_move_done_sig` after a sequence of events, starting from the `False`
set in `__init__` (line 99). -/
def moveDoneSigAfter (events : List LecoEvent) : Bool :=
  events.foldl stepMoveDoneSig false

/-- Guard of the busy-wait loop in `stop_motion`:
`while self._move_done_sig == False: pass`. -/
def stopMotionBlocks (sig : Bool) : Bool := !sig

/-! ## Helper lemmas -/

lemma clPollFrom_some_eq (flag : Nat → Int) (t : Int) :
    ∀ (fuel s n : Nat), clPollFrom flag t s fuel = some n → flag n = t := by
  intro fuel
  induction fuel with
  | zero => intro s n h; simp [clPollFrom] at h
  | succ f ih =>
    intro s n h
    by_cases hs : flag s = t
    · simp [clPollFrom, hs] at h
      rw [← h]; exact hs
    · simp [clPollFrom, hs] at h
      exact ih (s + 1) n h

lemma clPollFrom_isSome_of (flag : Nat → Int) (t : Int) :
    ∀ (fuel s n : Nat), s ≤ n → n < s + fuel → flag n = t →
      (clPollFrom flag t s fuel).isSome = true := by
  intro fuel
  induction fuel with
  | zero => intro s n h1 h2 _; omega
  | succ f ih =>
    intro s n h1 h2 hflag
    by_cases hs : flag s = t
    · simp [clPollFrom, hs]
    · have hsn : s ≠ n := fun e => hs (e ▸ hflag)
      simp [clPollFrom, hs]
      exact ih (s + 1) n (by omega) (by omega) hflag

lemma clPollFrom_none_of (flag : Nat → Int) (t : Int)
    (h : ∀ m, flag m ≠ t) :
    ∀ (fuel s : Nat), clPollFrom flag t s fuel = none := by
  intro fuel
  induction fuel with
  | zero => intro s; simp [clPollFrom]
  | succ f ih => intro s; simp [clPollFrom, h s]; exact ih (s + 1)

lemma foldl_moveDoneSig_true :
    ∀ (l : List LecoEvent), l.foldl stepMoveDoneSig true = true := by
  intro l
  induction l with
  | nil => rfl
  | cons e l ih =>
    have he : stepMoveDoneSig true e = true := by cases e <;> rfl
    simp only [List.foldl_cons, he, ih]

lemma foldl_moveDoneSig_of_mem :
    ∀ (l : List LecoEvent) (b : Bool), LecoEvent.setMoveDone ∈ l →
      l.foldl stepMoveDoneSig b = true := by
  intro l
  induction l with
  | nil => intro b h; simp at h
  | cons e l ih =>
    intro b h
    rcases List.mem_cons.mp h with he | hm
    · rw [← he]
      simp only [List.foldl_cons, stepMoveDoneSig]
      exact foldl_moveDoneSig_true l
    · simp only [List.foldl_cons]
      exact ih _ hm

/-! ## Claim theorems -/

/-- C1 (counterexample): the target-reached check does not poll on an
increasing geometric schedule starting at tens of milliseconds and capped
near 100 ms — the wait before every check is the fixed 200 ms of
`QtCore.QThread.msleep(200)`: the first interval is 200 ms (neither below
100 ms nor below a 150 ms cap), and the second interval is not 1.5 times the
first. -/
theorem target_polling_schedule_not_geometric :
    targetPollIntervalMs 0 = 200 ∧ targetPollIntervalMs 1 = 200
    ∧ ¬(targetPollIntervalMs 0 < 100)
    ∧ ¬(targetPollIntervalMs 0 ≤ 150)
    ∧ ¬(2 * targetPollIntervalMs 1 = 3 * targetPollIntervalMs 0) := by
  decide

/-- C1 (amended): every target-reached check waits a fixed 200 ms and then
returns exactly the device-reported reached flag, so the first check at
which the flag is true returns true; the inter-check interval is constant at
200 ms (no geometric backoff), and `ini_stage` sets the overall `timeout`
setting to 1000. -/
theorem target_reached_check_fixed_interval (positionReached : Bool)
    (n : Nat) :
    user_condition_to_reach_target positionReached = positionReached
    ∧ targetPollIntervalMs n = 200
    ∧ iniStageTimeoutSetting = 1000 := by
  cases positionReached <;>
    simp [user_condition_to_reach_target, targetPollIntervalMs,
      userConditionWaitMs, iniStageTimeoutSetting]

/-- C2: loading the local actuator plugin module always raises before any
plugin operation can run: the import of `PositionMonitor` from the hardware
module fails (the hardware module defines no such name), the class-body call
`TrinamicManager(baudrate=9600)` would independently raise TypeError
(`__init__` accepts no keyword), and hence the plugin class is never
instantiable. -/
theorem plugin_module_load_always_fails :
    loadLocalPluginModule = Except.error "PositionMonitor"
    ∧ callTrinamicManagerInit ["baudrate"] = Except.error "TypeError"
    ∧ localPluginInstantiable = false :=
  ⟨rfl, rfl, rfl⟩

/-- C3: `move_to_reference` is not equivalent to `move_to(0)` — it calls
`self.move_to(0, max_velocity)` with two positional arguments while
`move_to` declares one, so for every controller state it raises TypeError
and issues no motion command, whereas `move_to(0)` issues
`motor.move_to(0, max_velocity)`. -/
theorem move_to_reference_raises_type_error (maxVelocity : Int) :
    move_to_reference maxVelocity = Except.error "TypeError"
    ∧ callMoveTo maxVelocity [0] = Except.ok (MotorCmd.moveTo 0 maxVelocity) :=
  ⟨rfl, rfl⟩

/-- C4: `set_closed_loop_mode(value)` writes the `ClosedLoopMode` axis
parameter to 1 or 0 matching the value and then polls `CLInitFlag`, sleeping
a fixed 1 second between reads, returning only when a read equals the
written value: with any fuel the loop exits at index n only if the n-th read
matched; if some read within the fuel matches, the loop exits; and if no
read ever matches, the loop never exits for any fuel. -/
theorem set_closed_loop_mode_spec (flag : Nat → Int) (value : Bool)
    (fuel n : Nat) :
    (set_closed_loop_mode flag value fuel).1 = (if value then 1 else 0)
    ∧ clSleepSeconds = 1
    ∧ ((set_closed_loop_mode flag value fuel).2 = some n →
        flag n = (if value then 1 else 0))
    ∧ (flag n = (if value then 1 else 0) → n < fuel →
        ((set_closed_loop_mode flag value fuel).2).isSome = true)
    ∧ ((∀ m, flag m ≠ (if value then 1 else 0)) →
        (set_closed_loop_mode flag value fuel).2 = none) := by
  refine ⟨rfl, rfl, ?_, ?_, ?_⟩
  · intro h
    exact clPollFrom_some_eq flag _ fuel 0 n h
  · intro hflag hn
    exact clPollFrom_isSome_of flag _ fuel 0 n (Nat.zero_le n) (by omega) hflag
  · intro hall
    exact clPollFrom_none_of flag _ hall fuel 0

/-- C4 witness: with a device whose `CLInitFlag` first reads 1 at the third
poll, `set_closed_loop_mode(True)` terminates within fuel 5. -/
theorem set_closed_loop_mode_spec_witness :
    ((set_closed_loop_mode (fun m => if m = 2 then 1 else 0) true 5).2).isSome
      = true :=
  (set_closed_loop_mode_spec (fun m => if m = 2 then 1 else 0) true 5 2).2.2.2.1
    (by decide) (by decide)

/-- C5: for each supported unit (mm, um, nm, ps, rad) and every value, the
to-canonical conversion applied to `position` in `move_abs` / `move_rel`
composed with the display conversion applied to `current_value_metadata`
returns the original value exactly (the two directions multiply and divide
by the same per-unit factor). -/
theorem unit_conversion_round_trip (v : ℚ) :
    currentValueToDisplay "mm" (positionToCanonical "mm" v) = some v
    ∧ currentValueToDisplay "um" (positionToCanonical "um" v) = some v
    ∧ currentValueToDisplay "nm" (positionToCanonical "nm" v) = some v
    ∧ currentValueToDisplay "ps" (positionToCanonical "ps" v) = some v
    ∧ currentValueToDisplay "rad" (positionToCanonical "rad" v) = some v := by
  have hps : psToMmFactor ≠ 0 := by
    rw [psToMmFactor]; norm_num
  have hrad : radToDegFactor ≠ 0 := by
    rw [radToDegFactor, piDouble]; norm_num
  refine ⟨?_, ?_, ?_, ?_, ?_⟩ <;>
    simp [positionToCanonical, currentValueToDisplay,
      mul_div_cancel_right₀, hps, hrad]

/-- C6 (counterexample): with the selectable unit `deg` (which has no
conversion branch), `move_abs` raises UnboundLocalError while building the
telemetry metadata — the operation does not complete and no telemetry is
produced — and `move_home` raises before the move command is even
issued. -/
theorem move_deg_unit_raises :
    (move_abs "deg" 1 0).telemetry
      = Except.error (PyErr.unboundLocal "current_value_metadata")
    ∧ (move_home "deg" 0).moveIssued = false
    ∧ (move_home "deg" 0).telemetry
        = Except.error (PyErr.unboundLocal "current_value_metadata") :=
  ⟨rfl, rfl, rfl⟩

/-- C6 (amended): for every unit string without a dedicated conversion
branch, the conversion applied to the position is the identity and in
`move_abs` / `move_rel` the unconverted position is forwarded to the remote
controller; however, the local `current_value_metadata` is never assigned,
so all three operations raise UnboundLocalError at the telemetry
construction (before any publish), and in `move_home` this happens before
the move command, which is therefore never issued. -/
theorem move_unbranched_unit_spec (u : String) (p c : ℚ)
    (h : u ∉ ["mm", "um", "nm", "ps", "rad"]) :
    (move_abs u p c).sentPosition = p
    ∧ (move_abs u p c).telemetry
        = Except.error (PyErr.unboundLocal "current_value_metadata")
    ∧ (move_rel u p c).sentPosition = p
    ∧ (move_rel u p c).telemetry
        = Except.error (PyErr.unboundLocal "current_value_metadata")
    ∧ (move_home u c).moveIssued = false
    ∧ (move_home u c).telemetry
        = Except.error (PyErr.unboundLocal "current_value_metadata") := by
  obtain ⟨h1, h2, h3, h4, h5⟩ :
      u ≠ "mm" ∧ u ≠ "um" ∧ u ≠ "nm" ∧ u ≠ "ps" ∧ u ≠ "rad" := by
    simpa using h
  simp [move_abs, move_rel, move_home, positionToCanonical,
    currentValueToDisplay, currentValueToDisplayHome, h1, h2, h3, h4, h5]

/-- C6 witness: instantiation of the amended claim at the unit `deg`. -/
theorem move_unbranched_unit_witness :
    (move_abs "deg" 2 3).sentPosition = 2
    ∧ (move_abs "deg" 2 3).telemetry
        = Except.error (PyErr.unboundLocal "current_value_metadata")
    ∧ (move_rel "deg" 2 3).sentPosition = 2
    ∧ (move_rel "deg" 2 3).telemetry
        = Except.error (PyErr.unboundLocal "current_value_metadata")
    ∧ (move_home "deg" 3).moveIssued = false
    ∧ (move_home "deg" 3).telemetry
        = Except.error (PyErr.unboundLocal "current_value_metadata") :=
  move_unbranched_unit_spec "deg" 2 3 (by decide)

/-- C7 (counterexample): setting `microstep_resolution` to the enumerated
value `MicrostepResolution256Microsteps` matches no selector branch, leaves
the stored value unchanged, and reading back does not return the value that
was set — the enumerated values do not round-trip. -/
theorem microstep_enum_round_trip_fails :
    setMicrostepResolution "MicrostepResolutionFullstep"
        "MicrostepResolution256Microsteps"
      = "MicrostepResolutionFullstep"
    ∧ setMicrostepResolution "MicrostepResolutionFullstep"
        "MicrostepResolution256Microsteps"
      ≠ "MicrostepResolution256Microsteps" :=
  ⟨rfl, by decide⟩

/-- C7 (amended): the setter maps the nine selector keys (`Full`, `Half`,
`4`, ..., `256`) to the nine enumerated names of
`possible_microstep_resolution` in order, so set-then-get returns the
enumerated name corresponding to the key rather than the key itself; any
other value (including the enumerated names) leaves the stored resolution
unchanged, and the stored resolution stays within the nine enumerated names
whenever it starts there. -/
theorem microstep_setter_spec (stored value : String)
    (h : stored ∈ possible_microstep_resolution) :
    setMicrostepResolution stored value ∈ possible_microstep_resolution
    ∧ setMicrostepResolution stored "Full" = "MicrostepResolutionFullstep"
    ∧ setMicrostepResolution stored "Half" = "MicrostepResolutionHalfstep"
    ∧ setMicrostepResolution stored "4" = "MicrostepResolution4Microsteps"
    ∧ setMicrostepResolution stored "8" = "MicrostepResolution8Microsteps"
    ∧ setMicrostepResolution stored "16" = "MicrostepResolution16Microsteps"
    ∧ setMicrostepResolution stored "32" = "MicrostepResolution32Microsteps"
    ∧ setMicrostepResolution stored "64" = "MicrostepResolution64Microsteps"
    ∧ setMicrostepResolution stored "128" = "MicrostepResolution128Microsteps"
    ∧ setMicrostepResolution stored "256" = "MicrostepResolution256Microsteps"
    ∧ (value ∉ ["Full", "Half", "4", "8", "16", "32", "64", "128", "256"] →
        setMicrostepResolution stored value = stored) := by
  refine ⟨?_, rfl, rfl, rfl, rfl, rfl, rfl, rfl, rfl, rfl, ?_⟩
  · unfold setMicrostepResolution
    repeat' split
    all_goals first | decide | exact h
  · intro hv
    obtain ⟨v1, v2, v3, v4, v5, v6, v7, v8, v9⟩ :
        value ≠ "Full" ∧ value ≠ "Half" ∧ value ≠ "4" ∧ value ≠ "8"
        ∧ value ≠ "16" ∧ value ≠ "32" ∧ value ≠ "64" ∧ value ≠ "128"
        ∧ value ≠ "256" := by simpa using hv
    simp [setMicrostepResolution, v1, v2, v3, v4, v5, v6, v7, v8, v9]

/-- C7 witness: instantiation of the amended claim at a stored enumerated
name and an unrecognized value. -/
theorem microstep_setter_spec_witness :
    setMicrostepResolution "MicrostepResolutionHalfstep" "junk"
      ∈ possible_microstep_resolution :=
  (microstep_setter_spec "MicrostepResolutionHalfstep" "junk" (by decide)).1

/-- C8 (counterexample): after `connect("COM3")` opens a vendor interface
handle, `close("COM3")` removes the port from the tracked connections but
the handle opened for that port is still open — the session is not
destroyed. -/
theorem manager_close_leaves_handle_open :
    (manager_close (manager_connect initialManager "COM3") "COM3").connections
      = []
    ∧ "COM3" ∈
        (manager_close (manager_connect initialManager "COM3")
          "COM3").openHandles := by
  refine ⟨by decide, by decide⟩

/-- C8 (amended): for every manager state and port, `close(port)` removes
the first occurrence of the port from the tracked connections (and changes
nothing when the port is untracked) but never closes any vendor interface
handle: the set of open handles is unchanged. -/
theorem manager_close_spec (st : TrinamicManagerState) (port : String) :
    (manager_close st port).connections = st.connections.erase port
    ∧ (manager_close st port).openHandles = st.openHandles :=
  ⟨rfl, rfl⟩

/-- C9 (counterexample): starting the background position monitor twice
without stopping the first leaves two monitor workers running — two
concurrent emitters of position updates. -/
theorem double_start_two_monitors :
    ¬((start_position_monitoring
        (start_position_monitoring initialMonitoring)).runningMonitors.length
      ≤ 1) := by
  decide

/-- C9 (amended): every call to `start_position_monitoring` creates and
starts a new monitor worker while leaving all previously started monitors
running — the function contains no stop, quit or join of the previous
thread — so a second start yields one more concurrent emitter rather than
implying the previous monitor has stopped. -/
theorem start_position_monitoring_adds_monitor (s : PositionMonitoringState) :
    (start_position_monitoring s).runningMonitors
      = s.nextId :: s.runningMonitors
    ∧ (start_position_monitoring s).runningMonitors.length
      = s.runningMonitors.length + 1 :=
  ⟨rfl, by simp [start_position_monitoring]⟩

/-- C10: `_move_done_sig` starts False, is set to True by `set_move_done`,
and no event ever resets it: once True it stays True after any further
event, so after any event sequence containing a `set_move_done` the guard of
the busy-wait loop in `stop_motion` is false and every later `stop_motion`
call proceeds immediately. -/
theorem move_done_sig_spec :
    moveDoneSigAfter [] = false
    ∧ (∀ e, stepMoveDoneSig true e = true)
    ∧ (∀ sig, stepMoveDoneSig sig LecoEvent.setMoveDone = true)
    ∧ (∀ events, LecoEvent.setMoveDone ∈ events →
        moveDoneSigAfter events = true)
    ∧ (∀ events, LecoEvent.setMoveDone ∈ events →
        stopMotionBlocks (moveDoneSigAfter events) = false) := by
  refine ⟨rfl, ?_, ?_, ?_, ?_⟩
  · intro e; cases e <;> rfl
  · intro sig; rfl
  · intro events hm
    exact foldl_moveDoneSig_of_mem events false hm
  · intro events hm
    rw [moveDoneSigAfter, foldl_moveDoneSig_of_mem events false hm]
    rfl

/-- C10 witness: after a trace consisting of one `set_move_done` followed by
a `stop_motion`, the busy-wait guard is false. -/
theorem move_done_sig_witness :
    stopMotionBlocks
      (moveDoneSigAfter [LecoEvent.setMoveDone, LecoEvent.stopMotionCall])
      = false :=
  move_done_sig_spec.2.2.2.2
    [LecoEvent.setMoveDone, LecoEvent.stopMotionCall] (by decide)

end Trinamic
